/-
Verification of the SARAS onboarding form logic.

Shallow embedding of the validators, formatters and flow control found in the
onboarding components (multi-step wizard and single-page variant) together
with theorems checking the documented behaviour.
-/
import Mathlib

namespace Saras

/-! ## Character classes (JS regex semantics, ASCII range) -/

/-- JS `\s` whitespace test, restricted to the ASCII range used by the forms. -/
def jsIsWs (c : Char) : Bool :=
  c == ' ' || c == '\t' || c == '\n' || c == '\r' || c == '\x0b' || c == '\x0c'

/-- Embedding of `value.replace(/\s/g, '')`: remove all whitespace characters. -/
def stripWs (s : String) : String :=
  ⟨s.data.filter (fun c => !jsIsWs c)⟩

/-- Embedding of `value.trim()`: drop whitespace from both ends. -/
def jsTrim (s : String) : String :=
  ⟨((s.data.dropWhile jsIsWs).reverse.dropWhile jsIsWs).reverse⟩

/-- Numeric value of a digit character. -/
def digitVal (c : Char) : Nat := c.toNat - 48

/-! ## Luhn check: `isValidCardNumber` (payment-info step, duplicated in the
single-page variant) -/

/-- One digit's contribution: doubled (with the over-9 correction) when the
`shouldDouble` flag is set. -/
def luhnStep (dbl : Bool) (d : Nat) : Nat :=
  if dbl then (if d * 2 > 9 then d * 2 - 9 else d * 2) else d

/-- The loop of `isValidCardNumber`: digits are consumed right-to-left (the
list passed here is already reversed), the flag starts `false` and toggles. -/
def luhnSum : List Nat → Bool → Nat
  | [], _ => 0
  | d :: ds, dbl => luhnStep dbl d + luhnSum ds (!dbl)

/-- Embedding of `isValidCardNumber(cardNumber)`: strip whitespace, require 13–19 digits,
then run the Luhn loop and demand sum ≡ 0 (mod 10). -/
def isValidCardNumber (s : String) : Bool :=
  let clean := (stripWs s).data
  if clean.all Char.isDigit ∧ 13 ≤ clean.length ∧ clean.length ≤ 19 then
    luhnSum ((clean.map digitVal).reverse) false % 10 == 0
  else false

/-- Spec-side restatement of the Luhn sum: walk the digit list right-to-left
with an explicit position counter, doubling every digit at odd distance from
the right (i.e. every second digit starting from the second-to-last). -/
def luhnSpecAux : List Nat → Nat → Nat
  | [], _ => 0
  | d :: ds, i => luhnStep (decide (i % 2 = 1)) d + luhnSpecAux ds (i + 1)

/-- Spec-side Luhn sum of a digit list (most significant first). -/
def luhnSpecSum (ds : List Nat) : Nat := luhnSpecAux ds.reverse 0

lemma luhnSpecAux_eq (l : List Nat) : ∀ i, luhnSpecAux l i = luhnSum l (decide (i % 2 = 1)) := by
  induction l with
  | nil => intro i; rfl
  | cons d ds ih =>
    intro i
    have hpar : (decide ((i + 1) % 2 = 1)) = !(decide (i % 2 = 1)) := by
      rcases Nat.even_or_odd i with h | h
      · rcases h with ⟨k, hk⟩
        subst hk
        simp [Nat.add_mod, Nat.mul_mod_right, ← Nat.two_mul]
      · rcases h with ⟨k, hk⟩
        subst hk
        simp [Nat.add_mod, Nat.mul_mod_right]
    simp [luhnSpecAux, luhnSum, ih, hpar]

lemma luhnSpecSum_eq (ds : List Nat) : luhnSpecSum ds = luhnSum ds.reverse false := by
  simp [luhnSpecSum, luhnSpecAux_eq]

/-! ## Helper lemmas about the character classes and trimming -/

lemma str_length_data (s : String) : s.length = s.data.length := rfl

lemma isDigit_not_ws {c : Char} (h : c.isDigit = true) : jsIsWs c = false := by
  simp only [Char.isDigit, Bool.and_eq_true, decide_eq_true_eq] at h
  obtain ⟨h1, h2⟩ := h
  simp only [jsIsWs, Bool.or_eq_false_iff, beq_eq_false_iff_ne, ne_eq]
  refine ⟨⟨⟨⟨⟨?_, ?_⟩, ?_⟩, ?_⟩, ?_⟩, ?_⟩ <;> rintro rfl <;> revert h1 h2 <;> decide

lemma mk_eq_empty_iff (l : List Char) : String.mk l = "" ↔ l = [] := by
  constructor
  · intro h
    have := congrArg String.data h
    simpa using this
  · rintro rfl; rfl

lemma jsTrim_eq_empty_iff (s : String) :
    jsTrim s = "" ↔ ∀ c ∈ s.data, jsIsWs c = true := by
  rw [jsTrim, mk_eq_empty_iff, List.reverse_eq_nil_iff, List.dropWhile_eq_nil_iff]
  constructor
  · intro h c hc
    have hsplit := List.takeWhile_append_dropWhile (p := jsIsWs) (l := s.data)
    rw [← hsplit] at hc
    rcases List.mem_append.mp hc with hteil | hteil
    · exact List.mem_takeWhile_imp hteil
    · exact h c (List.mem_reverse.mpr hteil)
  · intro h c hc
    have hsplit := List.takeWhile_append_dropWhile (p := jsIsWs) (l := s.data)
    refine h c ?_
    rw [← hsplit]
    exact List.mem_append.mpr (Or.inr (List.mem_reverse.mp hc))

lemma jsTrim_ne_empty {s : String} {c : Char} (hc : c ∈ s.data)
    (hw : jsIsWs c = false) : ¬ jsTrim s = "" := by
  intro h
  have := (jsTrim_eq_empty_iff s).mp h c hc
  simp [hw] at this

/-! ## C1: the Luhn validator -/

/-- Claim C1: `isValidCardNumber` accepts exactly the strings whose
whitespace-stripped form is all digits, of length 13–19, with Luhn sum
(right-to-left walk doubling every second digit from the second-to-last,
subtracting 9 from doubled values over 9) divisible by 10; the known-good
test number `4111111111111111` passes and `4111111111111112` fails. -/
theorem C1_isValidCardNumber_luhn :
    (∀ s : String,
      isValidCardNumber s = true ↔
        ((stripWs s).data.all Char.isDigit = true ∧
         13 ≤ (stripWs s).length ∧ (stripWs s).length ≤ 19 ∧
         luhnSpecSum ((stripWs s).data.map digitVal) % 10 = 0)) ∧
    isValidCardNumber "4111111111111111" = true ∧
    isValidCardNumber "4111111111111112" = false := by
  refine ⟨?_, by decide, by decide⟩
  intro s
  rw [isValidCardNumber]
  simp only [str_length_data]
  split_ifs with h
  · obtain ⟨h1, h2, h3⟩ := h
    simp only [beq_iff_eq, ← luhnSpecSum_eq]
    exact ⟨fun hs => ⟨h1, h2, h3, hs⟩, fun hs => hs.2.2.2⟩
  · constructor
    · intro hf; exact absurd hf (by simp)
    · rintro ⟨h1, h2, h3, -⟩
      exact absurd ⟨h1, h2, h3⟩ h

/-! ## Formatters: `formatCardNumber` and `formatExpiryDate` -/

/-- Embedding of `cleanValue.match(/.\x7b1,4\x7d/g).join(' ')`: the digit string cut into greedy
chunks of four, joined by single spaces. -/
def join4 : List Char → List Char
  | a :: b :: c :: d :: e :: rest => a :: b :: c :: d :: ' ' :: join4 (e :: rest)
  | l => l

/-- Embedding of `formatCardNumber(value)`: strip whitespace then non-digits, group into
chunks of 4 joined by spaces, and keep at most 19 characters. -/
def formatCardNumber (s : String) : String :=
  ⟨(join4 (((stripWs s).data).filter Char.isDigit)).take 19⟩

/-- Embedding of `formatExpiryDate(value)`: strip non-digits; with at least two digits,
emit the first two, a slash, and the next at most two (`substr(2, 2)`). -/
def formatExpiryDate (s : String) : String :=
  let clean := s.data.filter Char.isDigit
  if 2 ≤ clean.length then ⟨clean.take 2 ++ '/' :: (clean.drop 2).take 2⟩
  else ⟨clean⟩

/-- The claim's description of `formatExpiryDate`: strip non-digits and, when
at least two remain, insert a slash after the second digit, keeping all the
remaining digits. -/
def claimFormatExpiryDate (s : String) : String :=
  let clean := s.data.filter Char.isDigit
  if 2 ≤ clean.length then ⟨clean.take 2 ++ '/' :: clean.drop 2⟩
  else ⟨clean⟩

lemma join4_short {l : List Char} (h : l.length ≤ 4) : join4 l = l := by
  rcases l with _ | ⟨a, _ | ⟨b, _ | ⟨c, _ | ⟨d, _ | ⟨e, rest⟩⟩⟩⟩⟩
  · rfl
  · rfl
  · rfl
  · rfl
  · rfl
  · simp at h

lemma take_join4 (n : Nat) : ∀ l : List Char,
    (join4 l).take (5 * n + 4) = join4 (l.take (4 * n + 4)) := by
  induction n with
  | zero =>
    intro l
    by_cases h4 : l.length ≤ 4
    · rw [join4_short h4,
        List.take_of_length_le (show l.length ≤ 5 * 0 + 4 by omega),
        join4_short h4]
    · rcases l with _ | ⟨a, _ | ⟨b, _ | ⟨c, _ | ⟨d, _ | ⟨e, rest⟩⟩⟩⟩⟩
      · exact absurd (by simp) h4
      · exact absurd (by simp) h4
      · exact absurd (by simp) h4
      · exact absurd (by simp) h4
      · exact absurd (by simp) h4
      · rfl
  | succ n ih =>
    intro l
    by_cases h4 : l.length ≤ 4
    · rw [join4_short h4,
        List.take_of_length_le (show l.length ≤ 5 * (n + 1) + 4 by omega),
        List.take_of_length_le (show l.length ≤ 4 * (n + 1) + 4 by omega),
        join4_short h4]
    · rcases l with _ | ⟨a, _ | ⟨b, _ | ⟨c, _ | ⟨d, _ | ⟨e, rest⟩⟩⟩⟩⟩
      · exact absurd (by simp) h4
      · exact absurd (by simp) h4
      · exact absurd (by simp) h4
      · exact absurd (by simp) h4
      · exact absurd (by simp) h4
      · have heq : 5 * (n + 1) + 4 = 5 * n + 4 + 5 := by ring
        have heq2 : 4 * (n + 1) + 4 = 4 * n + 4 + 4 := by ring
        rw [heq, heq2]
        simp only [join4, List.take_succ_cons]
        rw [ih, List.take_succ_cons]

lemma filter_isDigit_join4 : ∀ l : List Char,
    (∀ c ∈ l, c.isDigit = true) → (join4 l).filter Char.isDigit = l
  | [], _ => rfl
  | [a], h => by simp [join4, List.filter_cons, h a (by simp)]
  | [a, b], h => by
    simp [join4, List.filter_cons, h a (by simp), h b (by simp)]
  | [a, b, c], h => by
    simp [join4, List.filter_cons, h a (by simp), h b (by simp), h c (by simp)]
  | [a, b, c, d], h => by
    simp [join4, List.filter_cons, h a (by simp), h b (by simp), h c (by simp),
      h d (by simp)]
  | a :: b :: c :: d :: e :: rest, h => by
    have ih := filter_isDigit_join4 (e :: rest)
      (fun x hx => h x (by simp at hx ⊢; tauto))
    simp only [join4, List.filter_cons, h a (by simp), h b (by simp),
      h c (by simp), h d (by simp), ih]
    simp [ih]

lemma filter_digit_of_stripWs (l : List Char) :
    (l.filter (fun c => !jsIsWs c)).filter Char.isDigit = l.filter Char.isDigit := by
  induction l with
  | nil => rfl
  | cons c xs ih =>
    by_cases hd : c.isDigit = true
    · have hw := isDigit_not_ws hd
      simp [List.filter_cons, hd, hw, ih]
    · by_cases hw : jsIsWs c <;> simp [List.filter_cons, hd, hw, ih]

lemma formatCardNumber_data (s : String) :
    (formatCardNumber s).data
      = join4 (((stripWs s).data.filter Char.isDigit).take 16) := by
  show (join4 ((stripWs s).data.filter Char.isDigit)).take 19 = _
  simpa using take_join4 3 ((stripWs s).data.filter Char.isDigit)

lemma formatCardNumber_digits (s : String) :
    (formatCardNumber s).data.filter Char.isDigit
      = ((stripWs s).data.filter Char.isDigit).take 16 := by
  rw [formatCardNumber_data]
  apply filter_isDigit_join4
  intro c hc
  exact List.of_mem_filter (List.take_subset _ _ hc)

lemma formatCardNumber_idem (s : String) :
    formatCardNumber (formatCardNumber s) = formatCardNumber s := by
  apply String.ext
  have h1 : (stripWs (formatCardNumber s)).data.filter Char.isDigit
      = ((stripWs s).data.filter Char.isDigit).take 16 := by
    show ((formatCardNumber s).data.filter
      (fun c => !jsIsWs c)).filter Char.isDigit = _
    rw [filter_digit_of_stripWs, formatCardNumber_digits]
  rw [formatCardNumber_data (formatCardNumber s), h1, List.take_take,
    formatCardNumber_data s]
  simp

/-! ## C3, C9, C10: the formatter theorems -/

/-- Claim C3: `formatCardNumber` is idempotent, its output never exceeds 19
characters, and `4111111111111111` formats to `4111 1111 1111 1111`. -/
theorem C3_formatCardNumber_idempotent :
    (∀ s, formatCardNumber (formatCardNumber s) = formatCardNumber s) ∧
    (∀ s, (formatCardNumber s).length ≤ 19) ∧
    formatCardNumber "4111111111111111" = "4111 1111 1111 1111" := by
  refine ⟨fun s => formatCardNumber_idem s, fun s => ?_, by decide⟩
  rw [str_length_data]
  exact List.length_take_le _ _

/-- Counterexample to claim C9: on `"12256"` (five digits) `formatExpiryDate`
returns `"12/25"`, dropping the fifth digit, while the claim's
insert-a-slash-after-the-second-digit description would give `"12/256"`. -/
theorem C9_counterexample :
    formatExpiryDate "12256" = "12/25" ∧
    claimFormatExpiryDate "12256" = "12/256" ∧
    formatExpiryDate "12256" ≠ claimFormatExpiryDate "12256" := by decide

/-- Claim C9 as amended: `formatExpiryDate` strips non-digits and, when at least
two digits remain, returns the first two digits, a slash, and at most the
next two digits (digits beyond the fourth are discarded); it agrees with the
claim's description whenever the input holds at most four digits, and
`"1225"` formats to `"12/25"` while `"1"` stays `"1"`. -/
theorem C9_formatExpiryDate_amended :
    (∀ s, (s.data.filter Char.isDigit).length ≤ 4 →
      formatExpiryDate s = claimFormatExpiryDate s) ∧
    formatExpiryDate "1225" = "12/25" ∧
    formatExpiryDate "1" = "1" := by
  refine ⟨?_, by decide, by decide⟩
  intro s h
  simp only [formatExpiryDate, claimFormatExpiryDate]
  split_ifs with h2
  · have hlen : ((s.data.filter Char.isDigit).drop 2).length ≤ 2 := by
      simp only [List.length_drop]
      omega
    rw [List.take_of_length_le hlen]
  · rfl

/-- Witness for C9 (amended): the four-digit input `"0908"`. -/
theorem C9_formatExpiryDate_amended_witness :
    (("0908" : String).data.filter Char.isDigit).length ≤ 4 ∧
    formatExpiryDate "0908" = claimFormatExpiryDate "0908" :=
  ⟨by decide, C9_formatExpiryDate_amended.1 "0908" (by decide)⟩

/-! ## Onboarding data model (`OnboardingData` and the per-step slices) -/

structure PersonalInfoData where
  firstName : String
  lastName : String
  email : String
deriving DecidableEq

structure AccountSetupData where
  password : String
  confirmPassword : String
deriving DecidableEq

structure BillingAddressData where
  addressLine1 : String
  addressLine2 : String
  city : String
  state : String
  zipCode : String
  country : String
deriving DecidableEq

structure PaymentInfoData where
  cardNumber : String
  expiryDate : String
  cvv : String
  cardholderName : String
deriving DecidableEq

structure OnboardingData where
  personalInfo : PersonalInfoData
  accountSetup : AccountSetupData
  billingAddress : BillingAddressData
  paymentInfo : PaymentInfoData
  termsAccepted : Bool
deriving DecidableEq

/-- Fields of the payment-info step. -/
inductive PayField
  | cardNumber
  | expiryDate
  | cvv
  | cardholderName
deriving DecidableEq

/-- Embedding of `PaymentInfoStep.handleInputChange`: every keystroke is passed through
the field's formatter before being stored (`cvv` keeps at most 4 digits,
`cardholderName` is stored as typed). -/
def payHandleInputChange (d : PaymentInfoData) : PayField → String → PaymentInfoData
  | PayField.cardNumber, v => { d with cardNumber := formatCardNumber v }
  | PayField.expiryDate, v => { d with expiryDate := formatExpiryDate v }
  | PayField.cvv, v => { d with cvv := ⟨(v.data.filter Char.isDigit).take 4⟩ }
  | PayField.cardholderName, v => { d with cardholderName := v }

/-- Claim C10: `formatCardNumber` output carries at most 16 digit characters,
so the `cardNumber` stored by `handleInputChange` can never hold 17–19
digits, although `isValidCardNumber` accepts e.g. the 17- and 19-digit
all-zero strings. -/
theorem C10_stored_cardNumber_digit_cap :
    (∀ s, ((formatCardNumber s).data.filter Char.isDigit).length ≤ 16) ∧
    (∀ d v, (payHandleInputChange d PayField.cardNumber v).cardNumber
      = formatCardNumber v) ∧
    (∀ d v, (((payHandleInputChange d PayField.cardNumber v).cardNumber).data.filter
      Char.isDigit).length ≤ 16) ∧
    isValidCardNumber ⟨List.replicate 17 '0'⟩ = true ∧
    isValidCardNumber ⟨List.replicate 19 '0'⟩ = true := by
  have key : ∀ s, ((formatCardNumber s).data.filter Char.isDigit).length ≤ 16 := by
    intro s
    rw [formatCardNumber_digits]
    exact List.length_take_le _ _
  exact ⟨key, fun d v => rfl, fun d v => key v, by decide, by decide⟩

/-! ## Password strength (`PASSWORD_CRITERIA`, `getPasswordStrength`,
`getPasswordStrengthDisplay`), shared by the account-setup step and the
single-page variant -/

/-- Criterion `length`: at least 8 characters. -/
def pwHasLength (p : String) : Bool := decide (8 ≤ p.length)

/-- Criterion `uppercase`: JS `/[A-Z]/`. -/
def pwHasUpper (p : String) : Bool := p.data.any (fun c => 'A' ≤ c && c ≤ 'Z')

/-- Criterion `lowercase`: JS `/[a-z]/`. -/
def pwHasLower (p : String) : Bool := p.data.any (fun c => 'a' ≤ c && c ≤ 'z')

/-- Criterion `number`: JS `/\d/`. -/
def pwHasDigit (p : String) : Bool := p.data.any Char.isDigit

/-- The character class of the `special` criterion. -/
def specialChars : List Char := "!@#$%^&*(),.?\":\x7b\x7d|<>".data

/-- Criterion `special`. -/
def pwHasSpecial (p : String) : Bool := p.data.any (fun c => specialChars.contains c)

/-- The five `PASSWORD_CRITERIA` outcomes, in source order. -/
def passwordCriteria (p : String) : List Bool :=
  [pwHasLength p, pwHasUpper p, pwHasLower p, pwHasDigit p, pwHasSpecial p]

/-- Embedding of `getPasswordStrength(password)`: 0 for the empty string, otherwise the
number of criteria met. -/
def getPasswordStrength (p : String) : Nat :=
  if p = "" then 0 else ((passwordCriteria p).filter id).length

/-- Embedding of `getPasswordStrengthDisplay(score).label`. -/
def getPasswordStrengthDisplay (score : Nat) : String :=
  if score ≤ 1 then "Weak"
  else if score ≤ 3 then "Fair"
  else if score ≤ 4 then "Good"
  else "Strong"

lemma countBools (b1 b2 b3 b4 b5 : Bool) :
    (([b1, b2, b3, b4, b5].filter id)).length
      = (if b1 then 1 else 0) + (if b2 then 1 else 0) + (if b3 then 1 else 0)
        + (if b4 then 1 else 0) + (if b5 then 1 else 0) := by
  cases b1 <;> cases b2 <;> cases b3 <;> cases b4 <;> cases b5 <;> rfl

lemma pwHasLength_iff (p : String) : pwHasLength p = true ↔ 8 ≤ p.length := by
  simp [pwHasLength]

lemma pwHasUpper_iff (p : String) :
    pwHasUpper p = true ↔ ∃ c ∈ p.data, 'A' ≤ c ∧ c ≤ 'Z' := by
  simp [pwHasUpper]

lemma pwHasLower_iff (p : String) :
    pwHasLower p = true ↔ ∃ c ∈ p.data, 'a' ≤ c ∧ c ≤ 'z' := by
  simp [pwHasLower]

lemma pwHasDigit_iff (p : String) :
    pwHasDigit p = true ↔ ∃ c ∈ p.data, c.isDigit = true := by
  simp [pwHasDigit]

lemma pwHasSpecial_iff (p : String) :
    pwHasSpecial p = true ↔ ∃ c ∈ p.data, c ∈ specialChars := by
  simp [pwHasSpecial, List.contains_iff_exists_mem_beq]

/-- Claim C4: `getPasswordStrength` counts how many of the five criteria
(length ≥ 8, an uppercase letter, a lowercase letter, a digit, a special
character) the password meets; the label is Weak for 0–1, Fair for 2–3,
Good for 4 and Strong for 5; `"Abcdef1!"` scores 5 and `"abcdef"` scores 1. -/
theorem C4_password_strength_score :
    (∀ p : String, getPasswordStrength p
      = (if 8 ≤ p.length then 1 else 0)
        + (if ∃ c ∈ p.data, 'A' ≤ c ∧ c ≤ 'Z' then 1 else 0)
        + (if ∃ c ∈ p.data, 'a' ≤ c ∧ c ≤ 'z' then 1 else 0)
        + (if ∃ c ∈ p.data, c.isDigit = true then 1 else 0)
        + (if ∃ c ∈ p.data, c ∈ specialChars then 1 else 0)) ∧
    (∀ p, getPasswordStrength p ≤ 5) ∧
    getPasswordStrengthDisplay 0 = "Weak" ∧
    getPasswordStrengthDisplay 1 = "Weak" ∧
    getPasswordStrengthDisplay 2 = "Fair" ∧
    getPasswordStrengthDisplay 3 = "Fair" ∧
    getPasswordStrengthDisplay 4 = "Good" ∧
    getPasswordStrengthDisplay 5 = "Strong" ∧
    getPasswordStrength "Abcdef1!" = 5 ∧
    getPasswordStrength "abcdef" = 1 := by
  have hmain : ∀ p : String, getPasswordStrength p
      = (if 8 ≤ p.length then 1 else 0)
        + (if ∃ c ∈ p.data, 'A' ≤ c ∧ c ≤ 'Z' then 1 else 0)
        + (if ∃ c ∈ p.data, 'a' ≤ c ∧ c ≤ 'z' then 1 else 0)
        + (if ∃ c ∈ p.data, c.isDigit = true then 1 else 0)
        + (if ∃ c ∈ p.data, c ∈ specialChars then 1 else 0) := by
    intro p
    by_cases hp : p = ""
    · subst hp; decide
    · rw [getPasswordStrength, if_neg hp, passwordCriteria, countBools]
      simp only [← pwHasLength_iff, ← pwHasUpper_iff, ← pwHasLower_iff,
        ← pwHasDigit_iff, ← pwHasSpecial_iff]
  refine ⟨hmain, fun p => ?_, by decide, by decide, by decide, by decide,
    by decide, by decide, by decide, by decide⟩
  rw [hmain p]
  split_ifs <;> omega

/-! ## Expiry-date validation (payment-info step `validateField`) -/

/-- JS `/^\d{2}\/\d{2}$/.test(value)`. -/
def matchesMMYY (v : String) : Bool :=
  match v.data with
  | [m1, m2, sl, y1, y2] =>
      m1.isDigit && m2.isDigit && sl == '/' && y1.isDigit && y2.isDigit
  | _ => false

/-- Embedding of `parseInt(month)` on the part before the slash of a matching value. -/
def expMonth (v : String) : Nat :=
  10 * digitVal (v.data.headD '0') + digitVal ((v.data.drop 1).headD '0')

/-- Embedding of `parseInt(year)` on the part after the slash of a matching value. -/
def expYear (v : String) : Nat :=
  10 * digitVal ((v.data.drop 3).headD '0') + digitVal ((v.data.drop 4).headD '0')

/-- The `expiryDate` branch of `PaymentInfoStep.validateField`, with the
current date (`getFullYear() % 100`, `getMonth() + 1`) passed explicitly. -/
def payValidateExpiryDate (cy cm : Nat) (v : String) : Option String :=
  if jsTrim v = "" then some "Expiry date is required"
  else if !(matchesMMYY v) then some "Please enter date as MM/YY"
  else if expMonth v < 1 ∨ 12 < expMonth v then some "Invalid month"
  else if expYear v < cy ∨ (expYear v = cy ∧ expMonth v < cm) then
    some "Card has expired"
  else none

lemma matchesMMYY_not_blank {v : String} (h : matchesMMYY v = true) :
    ¬ jsTrim v = "" := by
  intro hblank
  have hall := (jsTrim_eq_empty_iff v).mp hblank
  rw [matchesMMYY] at h
  rcases hv : v.data with _ | ⟨m1, _ | ⟨m2, _ | ⟨sl, _ | ⟨y1, _ | ⟨y2, _ | rest⟩⟩⟩⟩⟩ <;>
    rw [hv] at h <;> simp at h
  have ha := hall m1 (by rw [hv]; simp)
  have := isDigit_not_ws h.1.1.1.1
  rw [ha] at this
  cases this

lemma payValidateExpiryDate_none_iff (cy cm : Nat) (v : String) :
    payValidateExpiryDate cy cm v = none ↔
      (matchesMMYY v = true ∧ 1 ≤ expMonth v ∧ expMonth v ≤ 12 ∧
       ¬(expYear v < cy ∨ (expYear v = cy ∧ expMonth v < cm))) := by
  rw [payValidateExpiryDate]
  split_ifs with h1 h2 h3 h4
  · constructor
    · intro h; simp at h
    · rintro ⟨hm, -⟩; exact absurd h1 (matchesMMYY_not_blank hm)
  · constructor
    · intro h; simp at h
    · rintro ⟨hm, -⟩; rw [hm] at h2; simp at h2
  · constructor
    · intro h; simp at h
    · rintro ⟨-, hm1, hm2, -⟩; omega
  · constructor
    · intro h; simp at h
    · rintro ⟨-, -, -, hne⟩; exact hne h4
  · constructor
    · intro h5
      push_neg at h3
      refine ⟨?_, h3.1, h3.2, h4⟩
      revert h2
      cases matchesMMYY v <;> simp
    · intro h5; rfl

/-- Claim C5: the multi-step `expiryDate` validator accepts exactly the strings
matching `MM/YY` with month 1–12 whose `(year, month)` is not
lexicographically before the current `(year mod 100, month)`; otherwise it
reports the required, bad-format, invalid-month or expired error. -/
theorem C5_expiryDate_validator :
    ∀ (cy cm : Nat) (v : String),
      (payValidateExpiryDate cy cm v = none ↔
        (matchesMMYY v = true ∧ 1 ≤ expMonth v ∧ expMonth v ≤ 12 ∧
         ¬(expYear v < cy ∨ (expYear v = cy ∧ expMonth v < cm)))) ∧
      (jsTrim v = "" →
        payValidateExpiryDate cy cm v = some "Expiry date is required") ∧
      (¬ jsTrim v = "" → matchesMMYY v = false →
        payValidateExpiryDate cy cm v = some "Please enter date as MM/YY") ∧
      (matchesMMYY v = true → (expMonth v < 1 ∨ 12 < expMonth v) →
        payValidateExpiryDate cy cm v = some "Invalid month") ∧
      (matchesMMYY v = true → 1 ≤ expMonth v → expMonth v ≤ 12 →
        (expYear v < cy ∨ (expYear v = cy ∧ expMonth v < cm)) →
        payValidateExpiryDate cy cm v = some "Card has expired") := by
  intro cy cm v
  refine ⟨payValidateExpiryDate_none_iff cy cm v, ?_, ?_, ?_, ?_⟩
  · intro h1
    rw [payValidateExpiryDate, if_pos h1]
  · intro h1 h2
    rw [payValidateExpiryDate, if_neg h1, if_pos (by rw [h2]; rfl)]
  · intro hm h3
    rw [payValidateExpiryDate, if_neg (matchesMMYY_not_blank hm),
      if_neg (by rw [hm]; simp), if_pos h3]
  · intro hm hm1 hm2 h4
    rw [payValidateExpiryDate, if_neg (matchesMMYY_not_blank hm),
      if_neg (by rw [hm]; simp), if_neg (by omega), if_pos h4]

/-- Witness for C5 at a fixed current date of August 2025 (`cy = 25`,
`cm = 8`): a valid future date, an invalid month, an expired card, a blank
value, and a badly formatted value. -/
theorem C5_expiryDate_validator_witness :
    payValidateExpiryDate 25 8 "09/27" = none ∧
    payValidateExpiryDate 25 8 "13/30" = some "Invalid month" ∧
    payValidateExpiryDate 25 8 "12/24" = some "Card has expired" ∧
    payValidateExpiryDate 25 8 "" = some "Expiry date is required" ∧
    payValidateExpiryDate 25 8 "1225" = some "Please enter date as MM/YY" :=
  ⟨((C5_expiryDate_validator 25 8 "09/27").1).mpr (by decide),
   (C5_expiryDate_validator 25 8 "13/30").2.2.2.1 (by decide) (by decide),
   (C5_expiryDate_validator 25 8 "12/24").2.2.2.2 (by decide) (by decide)
     (by decide) (by decide),
   (C5_expiryDate_validator 25 8 "").2.1 (by decide),
   (C5_expiryDate_validator 25 8 "1225").2.2.1 (by decide) (by decide)⟩

/-! ## ZIP-code validation (billing-address step `validateField`) -/

/-- JS `/^\d{5}(-\d{4})?$/.test(value)`. -/
def matchesUsZip (v : String) : Bool :=
  match v.data with
  | [a, b, c, d, e] =>
      a.isDigit && b.isDigit && c.isDigit && d.isDigit && e.isDigit
  | [a, b, c, d, e, dash, f, g, h, i] =>
      a.isDigit && b.isDigit && c.isDigit && d.isDigit && e.isDigit &&
      dash == '-' && f.isDigit && g.isDigit && h.isDigit && i.isDigit
  | _ => false

/-- The `zipCode` branch of `BillingAddressStep.validateField`; it branches
on the form's `country`. -/
def baValidateZipCode (country v : String) : Option String :=
  if jsTrim v = "" then some "ZIP/Postal code is required"
  else if country = "United States" then
    if !(matchesUsZip v) then
      some "Please enter a valid ZIP code (12345 or 12345-6789)"
    else none
  else if (jsTrim v).length < 3 then some "Please enter a valid postal code"
  else none

lemma baValidateZipCode_none_iff (country v : String) :
    baValidateZipCode country v = none ↔
      (¬ jsTrim v = "" ∧
        (if country = "United States" then matchesUsZip v = true
         else 3 ≤ (jsTrim v).length)) := by
  rw [baValidateZipCode]
  by_cases h1 : jsTrim v = ""
  · simp [h1]
  · rw [if_neg h1]
    by_cases h2 : country = "United States"
    · rw [if_pos h2]
      cases hz : matchesUsZip v
      · simp [h1, h2, hz]
      · simp [h1, h2, hz]
    · rw [if_neg h2]
      by_cases h3 : (jsTrim v).length < 3
      · rw [if_pos h3]
        simp only [if_neg h2]
        constructor
        · intro h; simp at h
        · rintro ⟨-, hlen⟩; omega
      · rw [if_neg h3]
        simp only [if_neg h2]
        constructor
        · intro h5
          exact ⟨h1, by omega⟩
        · intro h5; trivial

/-- Claim C6: the billing-address `zipCode` validator accepts a non-blank value
exactly when it matches `\d{5}(-\d{4})?` for country "United States" and when
its trimmed length is at least 3 for any other country; a blank value yields
the required error, and `"1234"` under "United States" yields the
valid-ZIP-code error while `"12345"` and `"12345-6789"` pass. -/
theorem C6_zipCode_validator :
    (∀ country v : String,
      (baValidateZipCode country v = none ↔
        (¬ jsTrim v = "" ∧
          (if country = "United States" then matchesUsZip v = true
           else 3 ≤ (jsTrim v).length))) ∧
      (jsTrim v = "" →
        baValidateZipCode country v = some "ZIP/Postal code is required")) ∧
    baValidateZipCode "United States" "1234"
      = some "Please enter a valid ZIP code (12345 or 12345-6789)" ∧
    baValidateZipCode "United States" "12345" = none ∧
    baValidateZipCode "United States" "12345-6789" = none := by
  refine ⟨fun country v => ⟨baValidateZipCode_none_iff country v, ?_⟩,
    by decide, by decide, by decide⟩
  intro h1
  rw [baValidateZipCode, if_pos h1]

/-- Witness for C6: a blank postal code under country "Canada". -/
theorem C6_zipCode_validator_witness :
    baValidateZipCode "Canada" "" = some "ZIP/Postal code is required" :=
  (C6_zipCode_validator.1 "Canada" "").2 (by decide)

/-! ## Remaining field validators of the multi-step wizard -/

/-- A character admitted by `[^\s@]` in the e-mail regex. -/
def emailAtomChar (c : Char) : Bool := !jsIsWs c && c != '@'

/-- JS `/^[^\s@]+@[^\s@]+\.[^\s@]+$/.test(value)`: one `@` splitting the
string into two nonempty `[^\s@]+` parts, the second containing an internal
dot. -/
def emailOk (v : String) : Bool :=
  match v.data.splitOn '@' with
  | [pre, post] =>
      !pre.isEmpty && pre.all emailAtomChar &&
      !post.isEmpty && post.all emailAtomChar &&
      (post.drop 1).dropLast.contains '.'
  | _ => false

/-- Embedding of `PersonalInfoStep.validateField` for `firstName`. -/
def piValidateFirstName (v : String) : Option String :=
  if jsTrim v = "" then some "First name is required"
  else if (jsTrim v).length < 2 then some "First name must be at least 2 characters"
  else none

/-- Embedding of `PersonalInfoStep.validateField` for `lastName`. -/
def piValidateLastName (v : String) : Option String :=
  if jsTrim v = "" then some "Last name is required"
  else if (jsTrim v).length < 2 then some "Last name must be at least 2 characters"
  else none

/-- Embedding of `PersonalInfoStep.validateField` for `email`. -/
def piValidateEmail (v : String) : Option String :=
  if jsTrim v = "" then some "Email address is required"
  else if !(emailOk v) then some "Please enter a valid email address"
  else none

/-- Embedding of `AccountSetupStep.validateForm`, password part: accepted when nonempty
and meeting all five criteria. -/
def asPasswordAccepts (d : AccountSetupData) : Bool :=
  !(d.password == "") && !(decide (getPasswordStrength d.password < 5))

/-- Embedding of `AccountSetupStep.validateForm`, confirmation part: accepted when
nonempty and matching the password. -/
def asConfirmAccepts (d : AccountSetupData) : Bool :=
  !(d.confirmPassword == "") && (d.password == d.confirmPassword)

/-- Embedding of `BillingAddressStep.validateField` for `addressLine1`. -/
def baValidateAddressLine1 (v : String) : Option String :=
  if jsTrim v = "" then some "Street address is required"
  else if (jsTrim v).length < 5 then some "Please enter a complete street address"
  else none

/-- Embedding of `BillingAddressStep.validateField` for `city`. -/
def baValidateCity (v : String) : Option String :=
  if jsTrim v = "" then some "City is required"
  else if (jsTrim v).length < 2 then some "Please enter a valid city name"
  else none

/-- Embedding of `BillingAddressStep.validateField` for `state`. -/
def baValidateState (v : String) : Option String :=
  if jsTrim v = "" then some "State/Province is required" else none

/-- Embedding of `BillingAddressStep.validateField` for `country`. -/
def baValidateCountry (v : String) : Option String :=
  if jsTrim v = "" then some "Country is required" else none

/-- Embedding of `PaymentInfoStep.validateField` for `cardNumber`. -/
def payValidateCardNumber (v : String) : Option String :=
  if jsTrim v = "" then some "Card number is required"
  else if !(isValidCardNumber v) then some "Please enter a valid card number"
  else none

/-- JS `/^\d{3,4}$/.test(value)`. -/
def matchesCvv (v : String) : Bool :=
  match v.data with
  | [a, b, c] => a.isDigit && b.isDigit && c.isDigit
  | [a, b, c, d] => a.isDigit && b.isDigit && c.isDigit && d.isDigit
  | _ => false

/-- Embedding of `PaymentInfoStep.validateField` for `cvv`. -/
def payValidateCvv (v : String) : Option String :=
  if jsTrim v = "" then some "CVV is required"
  else if !(matchesCvv v) then some "CVV must be 3 or 4 digits"
  else none

/-- Embedding of `PaymentInfoStep.validateField` for `cardholderName`. -/
def payValidateCardholderName (v : String) : Option String :=
  if jsTrim v = "" then some "Cardholder name is required"
  else if (jsTrim v).length < 2 then some "Please enter the full name on the card"
  else none

/-! ### Acceptance characterizations of the multi-step validators -/

lemma piValidateFirstName_isNone (v : String) :
    (piValidateFirstName v).isNone
      = (!(jsTrim v == "") && !(decide ((jsTrim v).length < 2))) := by
  rw [piValidateFirstName]
  by_cases h1 : jsTrim v = "" <;> by_cases h2 : (jsTrim v).length < 2 <;>
    simp [h1, h2]

lemma piValidateLastName_isNone (v : String) :
    (piValidateLastName v).isNone
      = (!(jsTrim v == "") && !(decide ((jsTrim v).length < 2))) := by
  rw [piValidateLastName]
  by_cases h1 : jsTrim v = "" <;> by_cases h2 : (jsTrim v).length < 2 <;>
    simp [h1, h2]

lemma piValidateEmail_isNone (v : String) :
    (piValidateEmail v).isNone = (!(jsTrim v == "") && emailOk v) := by
  rw [piValidateEmail]
  by_cases h1 : jsTrim v = "" <;> cases h2 : emailOk v <;> simp [h1, h2]

lemma baValidateAddressLine1_isNone (v : String) :
    (baValidateAddressLine1 v).isNone
      = (!(jsTrim v == "") && !(decide ((jsTrim v).length < 5))) := by
  rw [baValidateAddressLine1]
  by_cases h1 : jsTrim v = "" <;> by_cases h2 : (jsTrim v).length < 5 <;>
    simp [h1, h2]

lemma baValidateCity_isNone (v : String) :
    (baValidateCity v).isNone
      = (!(jsTrim v == "") && !(decide ((jsTrim v).length < 2))) := by
  rw [baValidateCity]
  by_cases h1 : jsTrim v = "" <;> by_cases h2 : (jsTrim v).length < 2 <;>
    simp [h1, h2]

lemma baValidateState_isNone (v : String) :
    (baValidateState v).isNone = !(jsTrim v == "") := by
  rw [baValidateState]
  by_cases h1 : jsTrim v = "" <;> simp [h1]

lemma baValidateCountry_isNone (v : String) :
    (baValidateCountry v).isNone = !(jsTrim v == "") := by
  rw [baValidateCountry]
  by_cases h1 : jsTrim v = "" <;> simp [h1]

lemma isValidCardNumber_not_blank {v : String}
    (h : isValidCardNumber v = true) : ¬ jsTrim v = "" := by
  intro hb
  have hall := (jsTrim_eq_empty_iff v).mp hb
  have hstrip : (stripWs v).data = [] := by
    show v.data.filter (fun c => !jsIsWs c) = []
    rw [List.filter_eq_nil_iff]
    intro c hc
    simp [hall c hc]
  rw [isValidCardNumber] at h
  simp only [hstrip] at h
  simp at h

lemma payValidateCardNumber_isNone (v : String) :
    (payValidateCardNumber v).isNone = isValidCardNumber v := by
  rw [payValidateCardNumber]
  by_cases h1 : jsTrim v = ""
  · rw [if_pos h1]
    cases hv : isValidCardNumber v
    · rfl
    · exact absurd h1 (isValidCardNumber_not_blank hv)
  · cases hv : isValidCardNumber v <;> simp [h1, hv]

lemma matchesCvv_not_blank {v : String} (h : matchesCvv v = true) :
    ¬ jsTrim v = "" := by
  intro hblank
  have hall := (jsTrim_eq_empty_iff v).mp hblank
  rw [matchesCvv] at h
  rcases hv : v.data with _ | ⟨a, _ | ⟨b, _ | ⟨c, _ | ⟨d, _ | rest⟩⟩⟩⟩ <;>
    rw [hv] at h <;> simp at h
  · have ha := hall a (by rw [hv]; simp)
    have := isDigit_not_ws h.1.1
    rw [ha] at this
    cases this
  · have ha := hall a (by rw [hv]; simp)
    have := isDigit_not_ws h.1.1.1
    rw [ha] at this
    cases this

lemma payValidateCvv_isNone (v : String) :
    (payValidateCvv v).isNone = matchesCvv v := by
  rw [payValidateCvv]
  by_cases h1 : jsTrim v = ""
  · rw [if_pos h1]
    cases hv : matchesCvv v
    · rfl
    · exact absurd h1 (matchesCvv_not_blank hv)
  · cases hv : matchesCvv v <;> simp [h1, hv]

lemma payValidateCardholderName_isNone (v : String) :
    (payValidateCardholderName v).isNone
      = (!(jsTrim v == "") && !(decide ((jsTrim v).length < 2))) := by
  rw [payValidateCardholderName]
  by_cases h1 : jsTrim v = "" <;> by_cases h2 : (jsTrim v).length < 2 <;>
    simp [h1, h2]

/-! ## Per-field acceptance of the two variants

`sp…Ok` is the single-page `SinglePageOnboarding.validateForm` acceptance of
a field (no error recorded for it); `mp…Ok` is the corresponding multi-step
validator's acceptance. -/

def spFirstNameOk (d : OnboardingData) : Bool :=
  !(jsTrim d.personalInfo.firstName == "")

def spLastNameOk (d : OnboardingData) : Bool :=
  !(jsTrim d.personalInfo.lastName == "")

def spEmailOk (d : OnboardingData) : Bool :=
  !(jsTrim d.personalInfo.email == "") && emailOk d.personalInfo.email

def spPasswordOk (d : OnboardingData) : Bool :=
  !(decide (getPasswordStrength d.accountSetup.password < 5))

def spConfirmPasswordOk (d : OnboardingData) : Bool :=
  d.accountSetup.password == d.accountSetup.confirmPassword

def spAddressLine1Ok (d : OnboardingData) : Bool :=
  !(jsTrim d.billingAddress.addressLine1 == "")

def spCityOk (d : OnboardingData) : Bool :=
  !(jsTrim d.billingAddress.city == "")

def spStateOk (d : OnboardingData) : Bool :=
  !(jsTrim d.billingAddress.state == "")

def spZipOk (d : OnboardingData) : Bool :=
  !(jsTrim d.billingAddress.zipCode == "")

def spCountryOk (d : OnboardingData) : Bool :=
  !(jsTrim d.billingAddress.country == "")

def spCardNumberOk (d : OnboardingData) : Bool :=
  isValidCardNumber d.paymentInfo.cardNumber

def spExpiryDateOk (d : OnboardingData) : Bool :=
  matchesMMYY d.paymentInfo.expiryDate

def spCvvOk (d : OnboardingData) : Bool :=
  matchesCvv d.paymentInfo.cvv

def spCardholderNameOk (d : OnboardingData) : Bool :=
  !(jsTrim d.paymentInfo.cardholderName == "")

def spTermsOk (d : OnboardingData) : Bool := d.termsAccepted

def mpFirstNameOk (d : OnboardingData) : Bool :=
  (piValidateFirstName d.personalInfo.firstName).isNone

def mpLastNameOk (d : OnboardingData) : Bool :=
  (piValidateLastName d.personalInfo.lastName).isNone

def mpEmailOk (d : OnboardingData) : Bool :=
  (piValidateEmail d.personalInfo.email).isNone

def mpPasswordOk (d : OnboardingData) : Bool := asPasswordAccepts d.accountSetup

def mpConfirmPasswordOk (d : OnboardingData) : Bool := asConfirmAccepts d.accountSetup

def mpAddressLine1Ok (d : OnboardingData) : Bool :=
  (baValidateAddressLine1 d.billingAddress.addressLine1).isNone

def mpCityOk (d : OnboardingData) : Bool :=
  (baValidateCity d.billingAddress.city).isNone

def mpStateOk (d : OnboardingData) : Bool :=
  (baValidateState d.billingAddress.state).isNone

def mpZipOk (d : OnboardingData) : Bool :=
  (baValidateZipCode d.billingAddress.country d.billingAddress.zipCode).isNone

def mpCountryOk (d : OnboardingData) : Bool :=
  (baValidateCountry d.billingAddress.country).isNone

def mpCardNumberOk (d : OnboardingData) : Bool :=
  (payValidateCardNumber d.paymentInfo.cardNumber).isNone

def mpExpiryDateOk (cy cm : Nat) (d : OnboardingData) : Bool :=
  (payValidateExpiryDate cy cm d.paymentInfo.expiryDate).isNone

def mpCvvOk (d : OnboardingData) : Bool :=
  (payValidateCvv d.paymentInfo.cvv).isNone

def mpCardholderNameOk (d : OnboardingData) : Bool :=
  (payValidateCardholderName d.paymentInfo.cardholderName).isNone

def mpTermsOk (d : OnboardingData) : Bool := d.termsAccepted

/-- A form state whose `zipCode` the single-page variant accepts and the
multi-step billing validator rejects. -/
def zipMismatchData : OnboardingData :=
  { personalInfo := { firstName := "", lastName := "", email := "" },
    accountSetup := { password := "", confirmPassword := "" },
    billingAddress := { addressLine1 := "", addressLine2 := "",
                        city := "", state := "", zipCode := "1234",
                        country := "United States" },
    paymentInfo := { cardNumber := "", expiryDate := "", cvv := "",
                     cardholderName := "" },
    termsAccepted := false }

/-- Counterexample to claim C2: with country "United States" and zipCode `"1234"`
the single-page `validateForm` accepts the `zipCode` field (it only checks
non-blankness) while the multi-step `BillingAddressStep.validateField`
rejects it, so the two variants do not validate every field identically. -/
theorem C2_counterexample :
    spZipOk zipMismatchData = true ∧
    mpZipOk zipMismatchData = false ∧
    baValidateZipCode "United States" "1234"
      = some "Please enter a valid ZIP code (12345 or 12345-6789)" := by
  decide

/-- A form whose `country` and all other fields are blank, used as the base
of the per-field strictness examples below. -/
def blankForm : OnboardingData :=
  { personalInfo := { firstName := "", lastName := "", email := "" },
    accountSetup := { password := "", confirmPassword := "" },
    billingAddress := { addressLine1 := "", addressLine2 := "",
                        city := "", state := "", zipCode := "",
                        country := "United States" },
    paymentInfo := { cardNumber := "", expiryDate := "", cvv := "",
                     cardholderName := "" },
    termsAccepted := false }

/-- Strictness example for `firstName`: the one-letter name "A". -/
def fnWeakData : OnboardingData :=
  { blankForm with
    personalInfo := { firstName := "A", lastName := "", email := "" } }

/-- Strictness example for `lastName`: the one-letter name "B". -/
def lnWeakData : OnboardingData :=
  { blankForm with
    personalInfo := { firstName := "", lastName := "B", email := "" } }

/-- Strictness example for `addressLine1`: the short address "abc". -/
def addrWeakData : OnboardingData :=
  { blankForm with
    billingAddress := { blankForm.billingAddress with addressLine1 := "abc" } }

/-- Strictness example for `city`: the one-letter city "X". -/
def cityWeakData : OnboardingData :=
  { blankForm with
    billingAddress := { blankForm.billingAddress with city := "X" } }

/-- Strictness example for `expiryDate`: the well-shaped but invalid month
"13/30". -/
def expWeakData : OnboardingData :=
  { blankForm with
    paymentInfo := { blankForm.paymentInfo with expiryDate := "13/30" } }

/-- Strictness example for `cardholderName`: the one-letter name "J". -/
def chWeakData : OnboardingData :=
  { blankForm with
    paymentInfo := { blankForm.paymentInfo with cardholderName := "J" } }

/-- Claim C2 as amended: per field, the single-page `validateForm` agrees
with the multi-step validators on `email`, `password`, `state`, `country`,
`cardNumber`, `cvv` and the terms gate, and is strictly weaker on
`firstName`, `lastName`, `confirmPassword`, `addressLine1`, `city`,
`zipCode`, `expiryDate` and `cardholderName`: there it drops checks the
multi-step validators perform — it checks only non-blankness for
`firstName`, `lastName`, `addressLine1`, `city`, `zipCode` and
`cardholderName` (omitting the minimum-length and US-ZIP-format checks),
only the `MM/YY` shape for `expiryDate` (omitting the month-range and
expiry checks), and only equality with `password` for `confirmPassword`
(omitting the non-blank requirement, so blank-equals-blank passes) — hence
every value the multi-step validator accepts is accepted, and for each of
these eight fields some value is accepted that the multi-step validator
rejects. -/
theorem C2_single_vs_multi_validation :
    (∀ (d : OnboardingData) (cy cm : Nat),
      (spEmailOk d = mpEmailOk d ∧
       spPasswordOk d = mpPasswordOk d ∧
       spStateOk d = mpStateOk d ∧
       spCountryOk d = mpCountryOk d ∧
       spCardNumberOk d = mpCardNumberOk d ∧
       spCvvOk d = mpCvvOk d ∧
       spTermsOk d = mpTermsOk d) ∧
      (mpFirstNameOk d ≤ spFirstNameOk d ∧
       mpLastNameOk d ≤ spLastNameOk d ∧
       mpConfirmPasswordOk d ≤ spConfirmPasswordOk d ∧
       mpAddressLine1Ok d ≤ spAddressLine1Ok d ∧
       mpCityOk d ≤ spCityOk d ∧
       mpZipOk d ≤ spZipOk d ∧
       mpExpiryDateOk cy cm d ≤ spExpiryDateOk d ∧
       mpCardholderNameOk d ≤ spCardholderNameOk d)) ∧
    (spFirstNameOk fnWeakData = true ∧ mpFirstNameOk fnWeakData = false) ∧
    (spLastNameOk lnWeakData = true ∧ mpLastNameOk lnWeakData = false) ∧
    (spConfirmPasswordOk blankForm = true ∧
      mpConfirmPasswordOk blankForm = false) ∧
    (spAddressLine1Ok addrWeakData = true ∧
      mpAddressLine1Ok addrWeakData = false) ∧
    (spCityOk cityWeakData = true ∧ mpCityOk cityWeakData = false) ∧
    (spZipOk zipMismatchData = true ∧ mpZipOk zipMismatchData = false) ∧
    (spExpiryDateOk expWeakData = true ∧
      ∀ cy cm : Nat, mpExpiryDateOk cy cm expWeakData = false) ∧
    (spCardholderNameOk chWeakData = true ∧
      mpCardholderNameOk chWeakData = false) := by
  refine ⟨?main, ⟨by decide, by decide⟩, ⟨by decide, by decide⟩,
    ⟨by decide, by decide⟩, ⟨by decide, by decide⟩, ⟨by decide, by decide⟩,
    ⟨by decide, by decide⟩, ⟨by decide, ?exp⟩, ⟨by decide, by decide⟩⟩
  case exp =>
    intro cy cm
    show (payValidateExpiryDate cy cm "13/30").isNone = false
    rw [payValidateExpiryDate, if_neg (by decide), if_neg (by decide),
      if_pos (by decide)]
    rfl
  case main =>
  intro d cy cm
  constructor
  · refine ⟨?_, ?_, ?_, ?_, ?_, ?_, rfl⟩
    · rw [spEmailOk, mpEmailOk, piValidateEmail_isNone]
    · rw [spPasswordOk, mpPasswordOk, asPasswordAccepts]
      by_cases hp : d.accountSetup.password = ""
      · rw [hp]; decide
      · simp [hp]
    · rw [spStateOk, mpStateOk, baValidateState_isNone]
    · rw [spCountryOk, mpCountryOk, baValidateCountry_isNone]
    · rw [spCardNumberOk, mpCardNumberOk, payValidateCardNumber_isNone]
    · rw [spCvvOk, mpCvvOk, payValidateCvv_isNone]
  · refine ⟨?_, ?_, ?_, ?_, ?_, ?_, ?_, ?_⟩
    · rw [mpFirstNameOk, piValidateFirstName_isNone, spFirstNameOk]
      exact Bool.and_le_left _ _
    · rw [mpLastNameOk, piValidateLastName_isNone, spLastNameOk]
      exact Bool.and_le_left _ _
    · rw [mpConfirmPasswordOk, asConfirmAccepts, spConfirmPasswordOk]
      exact Bool.and_le_right _ _
    · rw [mpAddressLine1Ok, baValidateAddressLine1_isNone, spAddressLine1Ok]
      exact Bool.and_le_left _ _
    · rw [mpCityOk, baValidateCity_isNone, spCityOk]
      exact Bool.and_le_left _ _
    · rw [Bool.le_iff_imp]
      intro hz
      rw [mpZipOk, Option.isNone_iff_eq_none, baValidateZipCode_none_iff] at hz
      rw [spZipOk]
      simp [hz.1]
    · rw [Bool.le_iff_imp]
      intro he
      rw [mpExpiryDateOk, Option.isNone_iff_eq_none,
        payValidateExpiryDate_none_iff] at he
      rw [spExpiryDateOk]
      exact he.1
    · rw [mpCardholderNameOk, payValidateCardholderName_isNone,
        spCardholderNameOk]
      exact Bool.and_le_left _ _

/-! ## The `OnboardingFlow` controller (C7) -/

/-- The ids of `ONBOARDING_STEPS`, in order. -/
def onboardingSteps : List String :=
  ["personal-info", "account-setup", "billing-address", "payment-info",
   "terms-confirmation"]

/-- The controller state: `currentStep` index plus the accumulated form
data. -/
structure FlowState where
  currentStep : Nat
  formData : OnboardingData
deriving DecidableEq

/-- Embedding of `handleNext`: advance only while below the last step index. -/
def handleNext (s : FlowState) : FlowState :=
  if s.currentStep < onboardingSteps.length - 1 then
    { s with currentStep := s.currentStep + 1 }
  else s

/-- Embedding of `handlePrevious`: go back only while above the first step index. -/
def handlePrevious (s : FlowState) : FlowState :=
  if 0 < s.currentStep then { s with currentStep := s.currentStep - 1 }
  else s

/-- The events the controller reacts to: navigation and
`updateFormData`. -/
inductive FlowEvent
  | next
  | previous
  | setData (d : OnboardingData)

def applyFlowEvent (s : FlowState) : FlowEvent → FlowState
  | FlowEvent.next => handleNext s
  | FlowEvent.previous => handlePrevious s
  | FlowEvent.setData d => { s with formData := d }

/-- The `useState` initial form data of `OnboardingFlow`. -/
def initFormData : OnboardingData :=
  { personalInfo := { firstName := "", lastName := "", email := "" },
    accountSetup := { password := "", confirmPassword := "" },
    billingAddress := { addressLine1 := "", addressLine2 := "",
                        city := "", state := "", zipCode := "",
                        country := "United States" },
    paymentInfo := { cardNumber := "", expiryDate := "", cvv := "",
                     cardholderName := "" },
    termsAccepted := false }

/-- Initial controller state: step index 0. -/
def initFlowState : FlowState :=
  { currentStep := 0, formData := initFormData }

def applyFlowEvents (s : FlowState) (evs : List FlowEvent) : FlowState :=
  evs.foldl applyFlowEvent s

lemma applyFlowEvent_step_le (s : FlowState) (e : FlowEvent)
    (h : s.currentStep ≤ 4) : (applyFlowEvent s e).currentStep ≤ 4 := by
  cases e with
  | next =>
    show (handleNext s).currentStep ≤ 4
    rw [handleNext]
    have hlen : onboardingSteps.length = 5 := rfl
    split_ifs with hlt
    · show s.currentStep + 1 ≤ 4
      omega
    · exact h
  | previous =>
    show (handlePrevious s).currentStep ≤ 4
    rw [handlePrevious]
    split_ifs with hlt
    · show s.currentStep - 1 ≤ 4
      omega
    · exact h
  | setData d => exact h

lemma applyFlowEvents_step_le (evs : List FlowEvent) :
    ∀ s : FlowState, s.currentStep ≤ 4 →
      (applyFlowEvents s evs).currentStep ≤ 4 := by
  induction evs with
  | nil => intro s h; exact h
  | cons e rest ih =>
    intro s h
    exact ih (applyFlowEvent s e) (applyFlowEvent_step_le s e h)

/-- Claim C7: `handleNext` and `handlePrevious` never touch `formData`;
`handleNext` increments the index only below 4 and `handlePrevious`
decrements it only above 0; from the initial index 0 every event sequence
stays within `[0, 4]`; and from any in-range non-initial index, `previous`
followed by `next` restores the original state, form data included. -/
theorem C7_navigation_preserves_formData :
    (∀ s : FlowState, (handleNext s).formData = s.formData ∧
      (handlePrevious s).formData = s.formData) ∧
    (∀ s : FlowState, (handleNext s).currentStep
        = if s.currentStep < 4 then s.currentStep + 1 else s.currentStep) ∧
    (∀ s : FlowState, (handlePrevious s).currentStep
        = if 0 < s.currentStep then s.currentStep - 1 else s.currentStep) ∧
    (∀ evs : List FlowEvent,
      (applyFlowEvents initFlowState evs).currentStep ≤ 4) ∧
    (∀ s : FlowState, 0 < s.currentStep → s.currentStep ≤ 4 →
      handleNext (handlePrevious s) = s) := by
  refine ⟨?_, ?_, ?_, ?_, ?_⟩
  · intro s
    constructor
    · rw [handleNext]; split_ifs <;> rfl
    · rw [handlePrevious]; split_ifs <;> rfl
  · intro s
    rw [handleNext]
    have hlen : onboardingSteps.length = 5 := rfl
    split_ifs with h1 h2 h2 <;> first | rfl | omega
  · intro s
    rw [handlePrevious]
    split_ifs with h1 <;> rfl
  · intro evs
    exact applyFlowEvents_step_le evs initFlowState (by decide)
  · intro s h0 h4
    rcases s with ⟨step, data⟩
    have h0s : 0 < step := h0
    have h4s : step ≤ 4 := h4
    have h1 : handlePrevious ⟨step, data⟩ = ⟨step - 1, data⟩ := by
      rw [handlePrevious, if_pos h0]
    rw [h1]
    have h2 : handleNext ⟨step - 1, data⟩ = ⟨step - 1 + 1, data⟩ := by
      rw [handleNext, if_pos]
      show step - 1 < onboardingSteps.length - 1
      have hlen : onboardingSteps.length = 5 := rfl
      omega
    rw [h2]
    congr 1
    omega

/-- Witness for C7: previous-then-next from step index 2. -/
theorem C7_navigation_preserves_formData_witness :
    handleNext (handlePrevious { currentStep := 2, formData := initFormData })
      = { currentStep := 2, formData := initFormData } :=
  C7_navigation_preserves_formData.2.2.2.2
    { currentStep := 2, formData := initFormData } (by decide) (by decide)

/-! ## The terms-confirmation submit gate (C8) -/

/-- Embedding of `TermsConfirmationStep.handleSubmit`, abstracted over the effect of the
`onSubmit` account-creation callback on a state of type `α`: when the terms
are not accepted it returns without invoking `onSubmit`. -/
def termsHandleSubmit {α : Type} (d : OnboardingData) (onSubmit : α → α)
    (st : α) : α :=
  if !d.termsAccepted then st else onSubmit st

/-- Claim C8: on the terminal step, `handleSubmit` invokes `onSubmit` exactly
when `termsAccepted` is true: with `termsAccepted = false` the state is
returned untouched whatever the other fields hold, and with
`termsAccepted = true` the `onSubmit` effect is applied. -/
theorem C8_submit_requires_terms :
    ∀ {α : Type} (d : OnboardingData) (onSubmit : α → α) (st : α),
      (d.termsAccepted = false → termsHandleSubmit d onSubmit st = st) ∧
      (d.termsAccepted = true → termsHandleSubmit d onSubmit st = onSubmit st) := by
  intro α d onSubmit st
  constructor
  · intro h; simp [termsHandleSubmit, h]
  · intro h; simp [termsHandleSubmit, h]

/-- A form state with every field filled in validly but the terms box
unchecked. -/
def allValidButTerms : OnboardingData :=
  { personalInfo := { firstName := "Ada", lastName := "Lovelace",
                      email := "ada@example.com" },
    accountSetup := { password := "Abcdef1!", confirmPassword := "Abcdef1!" },
    billingAddress := { addressLine1 := "123 Main Street",
                        addressLine2 := "", city := "New York",
                        state := "New York", zipCode := "12345",
                        country := "United States" },
    paymentInfo := { cardNumber := "4111 1111 1111 1111",
                     expiryDate := "12/30", cvv := "123",
                     cardholderName := "Ada Lovelace" },
    termsAccepted := false }

/-- Witness for C8: with terms unchecked but every other field valid
(each multi-step validator accepts it), `handleSubmit` leaves the state
untouched. -/
theorem C8_submit_requires_terms_witness :
    allValidButTerms.termsAccepted = false ∧
    mpFirstNameOk allValidButTerms = true ∧
    mpEmailOk allValidButTerms = true ∧
    mpPasswordOk allValidButTerms = true ∧
    mpZipOk allValidButTerms = true ∧
    mpCardNumberOk allValidButTerms = true ∧
    mpCvvOk allValidButTerms = true ∧
    termsHandleSubmit allValidButTerms (fun n => n + 1) (0 : Nat) = 0 :=
  ⟨rfl, by decide, by decide, by decide, by decide, by decide, by decide,
   (C8_submit_requires_terms allValidButTerms (fun n => n + 1) 0).1 rfl⟩

end Saras
